import Mathlib

/-!
Shallow embedding of the `CameraDisplay` class from
`ctapipe/visualization/mpl.py`.

Numeric values (pixel positions, radii, image intensities, ellipse
parameters) are modelled as real numbers.  A numpy array is modelled as a
shape (list of dimension lengths) together with flat data; `draw_image`
only inspects the shape and stores the whole array.  The matplotlib
`RegularPolyCollection` and `Ellipse` objects are modelled as records
carrying exactly the attributes the code sets; the axes' patch list is
carried on the display state so that `add_patch` is observable.  A Python
`raise` is modelled with `Except.error`; since the shape check in
`draw_image` precedes the mutation, the error branch leaves the state
untouched, which `draw_image_state` (the post-state of the mutable
object) makes explicit.
-/

namespace Ctapipe

/-- A numpy-style array: a shape together with flat real data. -/
structure NDArray where
  shape : List Nat
  data : List ℝ

/-- Total element count of an array (`len` of a 1-D array, product of the
dimensions in general). -/
def NDArray.size (a : NDArray) : Nat := a.shape.prod

/-- The geometry collaborator (`ctapipe.io.CameraGeometry`): per-pixel x and
y positions, per-pixel radii, and the pixel-shape tag. -/
structure CameraGeometry where
  pix_x : List ℝ
  pix_y : List ℝ
  pix_r : List ℝ
  pix_type : String

/-- Shape of the geometry's 1-D pixel x-position array (`geom.pix_x.shape`). -/
def CameraGeometry.pixXShape (g : CameraGeometry) : List Nat := [g.pix_x.length]

/-- The geometry's pixel count. -/
def CameraGeometry.pixelCount (g : CameraGeometry) : Nat := g.pix_x.length

/-- Model of `matplotlib.collections.RegularPolyCollection`, carrying the
attributes the code sets: number of sides, rotation, one offset per marker,
marker sizes, the colour map, the outline width, and the per-pixel value
array (`set_array`). -/
structure RegularPolyCollection where
  numsides : Nat
  rotation : ℝ
  offsets : List (ℝ × ℝ)
  sizes : List ℝ
  cmap : String
  linewidth : ℝ
  valueArray : NDArray

/-- Model of `matplotlib.patches.Ellipse` with the attributes the code
passes: centre, width, height, angle in degrees, fill flag, and the
caller-supplied style overrides (`**kwargs`). -/
structure EllipsePatch where
  xy : ℝ × ℝ
  width : ℝ
  height : ℝ
  angle : ℝ
  fill : Bool
  style : List (String × String)

/-- State of a `CameraDisplay` object: the geometry, the display's own
colour-map attribute (`self.cmap`), the pixel collection, the patches added
to the axes, and the axes title. -/
structure CameraDisplay where
  geom : CameraGeometry
  cmap : String
  pixels : RegularPolyCollection
  patches : List EllipsePatch
  title : String

/-- `CameraDisplay._radius_to_size`: `radii * np.pi * 550` elementwise,
a hard-coded empirical scale. -/
noncomputable def radius_to_size (radii : List ℝ) : List ℝ :=
  radii.map (fun r => r * Real.pi * 550)

/-- The display built by the hexagonal branch of `CameraDisplay.__init__`:
a 6-sided collection with zero rotation, offsets `zip(xx, yy)`, sizes from
`_radius_to_size`, the jet colour map, zero linewidth, and a value array of
zeros shaped like `pix_x` (`np.zeros_like`). -/
noncomputable def hexDisplay (geometry : CameraGeometry) (title : String) :
    CameraDisplay :=
  { geom := geometry
    cmap := "jet"
    pixels :=
      { numsides := 6
        rotation := 0
        offsets := geometry.pix_x.zip geometry.pix_y
        sizes := radius_to_size geometry.pix_r
        cmap := "jet"
        linewidth := 0
        valueArray :=
          { shape := [geometry.pix_x.length]
            data := List.replicate geometry.pix_x.length 0 } }
    patches := []
    title := title }

/-- `CameraDisplay.__init__`: builds the pixel collection when the geometry's
pixel-shape tag is `"hexagonal"`, otherwise raises the unsupported-shape
`ValueError`. -/
noncomputable def mkCameraDisplay (geometry : CameraGeometry) (title : String) :
    Except String CameraDisplay :=
  if geometry.pix_type = "hexagonal" then
    Except.ok (hexDisplay geometry title)
  else
    Except.error ("Unimplemented pixel type: " ++ geometry.pix_type)

/-- `CameraDisplay.set_cmap`: replaces the pixel collection's colour map. -/
def set_cmap (d : CameraDisplay) (cmap : String) : CameraDisplay :=
  { d with pixels := { d.pixels with cmap := cmap } }

/-- The shape-mismatch message of `draw_image` (the source's two formatted
string literals concatenate without a space between `the` and `given`). -/
def drawImageError (imageShape geomShape : List Nat) : String :=
  "Image has a different shape " ++ toString imageShape ++ " than the" ++
    "given CameraGeometry " ++ toString geomShape

/-- `CameraDisplay.draw_image`: raises the shape-mismatch error when the
image's shape differs from `geom.pix_x.shape`, otherwise stores the image
as the collection's value array (`set_array`). -/
def draw_image (d : CameraDisplay) (image : NDArray) :
    Except String CameraDisplay :=
  if image.shape ≠ d.geom.pixXShape then
    Except.error (drawImageError image.shape d.geom.pixXShape)
  else
    Except.ok { d with pixels := { d.pixels with valueArray := image } }

/-- Post-state of the mutable display after a `draw_image` call: the updated
state on success, the untouched state when the exception propagates (the
check precedes the mutation in the source). -/
def draw_image_state (d : CameraDisplay) (image : NDArray) : CameraDisplay :=
  match draw_image d image with
  | Except.ok dd => dd
  | Except.error _ => d

/-- `np.degrees`: radians to degrees. -/
noncomputable def degrees (x : ℝ) : ℝ := x * (180 / Real.pi)

/-- `CameraDisplay.add_moment_ellipse`: builds an unfilled ellipse at the
centroid with `width = width`, `height = length`, `angle = np.degrees phi`,
adds it to the axes patches and returns it.  `assymmetry` is accepted but
unused, as in the source. -/
noncomputable def add_moment_ellipse (d : CameraDisplay) (centroid : ℝ × ℝ)
    (length width phi assymmetry : ℝ) (kwargs : List (String × String)) :
    CameraDisplay × EllipsePatch :=
  let ellipse : EllipsePatch :=
    { xy := centroid
      width := width
      height := length
      angle := degrees phi
      fill := false
      style := kwargs }
  ({ d with patches := d.patches ++ [ellipse] }, ellipse)

/-! ### Sample values for witnesses

The three-pixel hexagonal geometry of the spec's scenario: pixels at
(0,0), (1,0), (0,1), radius 0.1 each. -/

noncomputable def gHex : CameraGeometry :=
  { pix_x := [0, 1, 0]
    pix_y := [0, 0, 1]
    pix_r := [0.1, 0.1, 0.1]
    pix_type := "hexagonal" }

noncomputable def gSquare : CameraGeometry :=
  { pix_x := [0, 1, 0]
    pix_y := [0, 0, 1]
    pix_r := [0.1, 0.1, 0.1]
    pix_type := "square" }

noncomputable def pix0 : RegularPolyCollection :=
  { numsides := 6
    rotation := 0
    offsets := [(0, 0), (1, 0), (0, 1)]
    sizes := [1, 1, 1]
    cmap := "jet"
    linewidth := 0
    valueArray := { shape := [3], data := [0, 0, 0] } }

noncomputable def disp0 : CameraDisplay :=
  { geom := gHex
    cmap := "jet"
    pixels := pix0
    patches := []
    title := "Camera" }

/-- A well-shaped three-pixel image. -/
noncomputable def img0 : NDArray := { shape := [3], data := [1, 2, 3] }

/-- A two-element image: wrong length for a three-pixel geometry. -/
noncomputable def img2 : NDArray := { shape := [2], data := [1, 2] }

/-- A 2-D image with three elements in total but shape `[1, 3]`. -/
noncomputable def imgGrid : NDArray := { shape := [1, 3], data := [1, 2, 3] }

noncomputable def disp1 : CameraDisplay :=
  { disp0 with pixels := { disp0.pixels with valueArray := img0 } }

def cmap1 : String := "viridis"

def title0 : String := "Camera"

/-! ### Helper lemmas -/

/-- `draw_image` succeeds exactly when the shapes agree, and then the result
is the input display with the value array replaced. -/
theorem draw_image_eq_ok_iff (d : CameraDisplay) (image : NDArray)
    (dd : CameraDisplay) :
    draw_image d image = Except.ok dd ↔
      image.shape = d.geom.pixXShape ∧
        dd = { d with pixels := { d.pixels with valueArray := image } } := by
  unfold draw_image
  by_cases hc : image.shape = d.geom.pixXShape
  · simp [hc, eq_comm]
  · simp [hc]

/-- Replacing a collection's value array with its current value array is the
identity. -/
theorem setValueArray_eq_self (p : RegularPolyCollection) (v : NDArray)
    (h : p.valueArray = v) : { p with valueArray := v } = p := by
  cases p
  cases h
  rfl

/-! ### Claims -/

/-- Claim C1: for every image array whose shape equals the geometry's pixel
array shape, `draw_image` succeeds, and afterwards the pixel collection's
stored value array equals the input image. -/
theorem c1_draw_image_ok (d : CameraDisplay) (image : NDArray)
    (h : image.shape = d.geom.pixXShape) :
    ∃ dd : CameraDisplay, draw_image d image = Except.ok dd ∧
      dd.pixels.valueArray = image := by
  refine ⟨{ d with pixels := { d.pixels with valueArray := image } }, ?_, rfl⟩
  exact (draw_image_eq_ok_iff d image _).2 ⟨h, rfl⟩

/-- Witness for C1 at the three-pixel geometry with image `[1, 2, 3]`. -/
theorem c1_witness :
    img0.shape = disp0.geom.pixXShape ∧
      ∃ dd : CameraDisplay, draw_image disp0 img0 = Except.ok dd ∧
        dd.pixels.valueArray = img0 :=
  ⟨rfl, c1_draw_image_ok disp0 img0 rfl⟩

/-- Claim C2: for every image array whose length does not equal the
geometry's pixel count, `draw_image` raises the shape-mismatch error and the
display state — in particular the stored value array — is unchanged. -/
theorem c2_draw_image_bad_length (d : CameraDisplay) (image : NDArray)
    (h : image.size ≠ d.geom.pixelCount) :
    draw_image d image =
        Except.error (drawImageError image.shape d.geom.pixXShape) ∧
      draw_image_state d image = d ∧
      (draw_image_state d image).pixels.valueArray = d.pixels.valueArray := by
  have hs : image.shape ≠ d.geom.pixXShape := by
    intro he
    apply h
    simp [NDArray.size, he, CameraGeometry.pixXShape, CameraGeometry.pixelCount]
  have herr : draw_image d image =
      Except.error (drawImageError image.shape d.geom.pixXShape) := by
    unfold draw_image
    simp [hs]
  refine ⟨herr, ?_, ?_⟩ <;> simp [draw_image_state, herr]

/-- Witness for C2: a two-element image against the three-pixel geometry. -/
theorem c2_witness :
    img2.size ≠ disp0.geom.pixelCount ∧
      (draw_image disp0 img2 =
          Except.error (drawImageError img2.shape disp0.geom.pixXShape) ∧
        draw_image_state disp0 img2 = disp0 ∧
        (draw_image_state disp0 img2).pixels.valueArray =
          disp0.pixels.valueArray) :=
  ⟨by decide, c2_draw_image_bad_length disp0 img2 (by decide)⟩

/-- Claim C3: for every geometry whose pixel-shape tag is not `"hexagonal"`,
construction raises the unsupported-shape error, and never succeeds. -/
theorem c3_non_hexagonal_fails (g : CameraGeometry) (title : String)
    (h : g.pix_type ≠ "hexagonal") :
    mkCameraDisplay g title =
        Except.error ("Unimplemented pixel type: " ++ g.pix_type) ∧
      ∀ d : CameraDisplay, mkCameraDisplay g title ≠ Except.ok d := by
  have herr : mkCameraDisplay g title =
      Except.error ("Unimplemented pixel type: " ++ g.pix_type) := by
    unfold mkCameraDisplay
    simp [h]
  exact ⟨herr, by simp [herr]⟩

/-- Witness for C3: the same three-pixel geometry with tag `"square"`. -/
theorem c3_witness :
    gSquare.pix_type ≠ "hexagonal" ∧
      (mkCameraDisplay gSquare title0 =
          Except.error ("Unimplemented pixel type: " ++ gSquare.pix_type) ∧
        ∀ d : CameraDisplay, mkCameraDisplay gSquare title0 ≠ Except.ok d) :=
  ⟨by decide, c3_non_hexagonal_fails gSquare title0 (by decide)⟩

/-- Claim C4: for every geometry with pixel-shape tag `"hexagonal"` (and one
y position per x position), construction succeeds with a pixel collection of
one six-sided marker per pixel, positioned at each pixel's (x, y), with zero
outline width, and an initial value array of zeros of length equal to the
geometry's pixel count. -/
theorem c4_hexagonal_construction (g : CameraGeometry) (title : String)
    (hx : g.pix_type = "hexagonal") (hy : g.pix_y.length = g.pix_x.length) :
    ∃ d : CameraDisplay, mkCameraDisplay g title = Except.ok d ∧
      d.pixels.offsets.length = g.pixelCount ∧
      d.pixels.offsets = g.pix_x.zip g.pix_y ∧
      d.pixels.numsides = 6 ∧
      d.pixels.linewidth = 0 ∧
      d.pixels.valueArray.data = List.replicate g.pixelCount 0 ∧
      d.pixels.valueArray.data.length = g.pixelCount := by
  refine ⟨hexDisplay g title, ?_, ?_, rfl, rfl, rfl, rfl, ?_⟩
  · unfold mkCameraDisplay
    simp [hx]
  · simp [hexDisplay, CameraGeometry.pixelCount, hy]
  · simp [hexDisplay, CameraGeometry.pixelCount]

/-- Witness for C4 at the three-pixel hexagonal geometry. -/
theorem c4_witness :
    gHex.pix_type = "hexagonal" ∧ gHex.pix_y.length = gHex.pix_x.length ∧
      ∃ d : CameraDisplay, mkCameraDisplay gHex title0 = Except.ok d ∧
        d.pixels.offsets.length = gHex.pixelCount ∧
        d.pixels.offsets = gHex.pix_x.zip gHex.pix_y ∧
        d.pixels.numsides = 6 ∧
        d.pixels.linewidth = 0 ∧
        d.pixels.valueArray.data = List.replicate gHex.pixelCount 0 ∧
        d.pixels.valueArray.data.length = gHex.pixelCount :=
  ⟨rfl, rfl, c4_hexagonal_construction gHex title0 rfl rfl⟩

/-- Claim C5: the marker sizes computed at construction are the geometry's
radii scaled elementwise by `π * 550`. -/
theorem c5_size_transform (g : CameraGeometry) (title : String)
    (hx : g.pix_type = "hexagonal") :
    ∃ d : CameraDisplay, mkCameraDisplay g title = Except.ok d ∧
      d.pixels.sizes = g.pix_r.map (fun r => r * Real.pi * 550) := by
  refine ⟨hexDisplay g title, ?_, rfl⟩
  unfold mkCameraDisplay
  simp [hx]

/-- Witness for C5 at the three-pixel hexagonal geometry. -/
theorem c5_witness :
    gHex.pix_type = "hexagonal" ∧
      ∃ d : CameraDisplay, mkCameraDisplay gHex title0 = Except.ok d ∧
        d.pixels.sizes = gHex.pix_r.map (fun r => r * Real.pi * 550) :=
  ⟨rfl, c5_size_transform gHex title0 rfl⟩

/-- Claim C6: `add_moment_ellipse` returns an unfilled ellipse whose centre
is the centroid, whose angle is phi converted from radians to degrees, whose
width is the input width and whose height is the input length; the ellipse
is appended to the surface's patches and returned. -/
theorem c6_moment_ellipse (d : CameraDisplay) (centroid : ℝ × ℝ)
    (length width phi assymmetry : ℝ) (kwargs : List (String × String)) :
    (add_moment_ellipse d centroid length width phi assymmetry kwargs).2.xy =
        centroid ∧
      (add_moment_ellipse d centroid length width phi assymmetry
            kwargs).2.angle = phi * 180 / Real.pi ∧
      (add_moment_ellipse d centroid length width phi assymmetry
            kwargs).2.width = width ∧
      (add_moment_ellipse d centroid length width phi assymmetry
            kwargs).2.height = length ∧
      (add_moment_ellipse d centroid length width phi assymmetry
            kwargs).2.fill = false ∧
      (add_moment_ellipse d centroid length width phi assymmetry
            kwargs).1.patches =
        d.patches ++
          [(add_moment_ellipse d centroid length width phi assymmetry
              kwargs).2] := by
  refine ⟨rfl, ?_, rfl, rfl, rfl, rfl⟩
  show degrees phi = phi * 180 / Real.pi
  rw [degrees, mul_div_assoc]

/-- Claim C7: `set_cmap`, `add_moment_ellipse` and (successful) `draw_image`
preserve the invariant that the collection's element count equals the
geometry's pixel count; `set_cmap` and `add_moment_ellipse` leave the value
array untouched, and `draw_image` changes nothing of the collection but the
value array. -/
theorem c7_invariant (d : CameraDisplay) (cmap : String) (centroid : ℝ × ℝ)
    (length width phi assymmetry : ℝ) (kwargs : List (String × String))
    (hinv : d.pixels.offsets.length = d.geom.pixelCount) :
    ((set_cmap d cmap).pixels.offsets.length =
        (set_cmap d cmap).geom.pixelCount ∧
      (set_cmap d cmap).pixels.valueArray = d.pixels.valueArray ∧
      (set_cmap d cmap).geom = d.geom) ∧
    ((add_moment_ellipse d centroid length width phi assymmetry
          kwargs).1.pixels = d.pixels ∧
      (add_moment_ellipse d centroid length width phi assymmetry
          kwargs).1.geom = d.geom ∧
      (add_moment_ellipse d centroid length width phi assymmetry
          kwargs).1.pixels.offsets.length =
        (add_moment_ellipse d centroid length width phi assymmetry
            kwargs).1.geom.pixelCount) ∧
    (∀ (image : NDArray) (dd : CameraDisplay),
      draw_image d image = Except.ok dd →
        dd.pixels.offsets.length = dd.geom.pixelCount ∧
        dd.geom = d.geom ∧
        dd.pixels.offsets = d.pixels.offsets ∧
        dd.pixels.sizes = d.pixels.sizes ∧
        dd.pixels.cmap = d.pixels.cmap ∧
        dd.pixels.numsides = d.pixels.numsides ∧
        dd.pixels.rotation = d.pixels.rotation ∧
        dd.pixels.linewidth = d.pixels.linewidth) := by
  refine ⟨⟨hinv, rfl, rfl⟩, ⟨rfl, rfl, hinv⟩, ?_⟩
  intro image dd hok
  obtain ⟨-, hdd⟩ := (draw_image_eq_ok_iff d image dd).1 hok
  subst hdd
  exact ⟨hinv, rfl, rfl, rfl, rfl, rfl, rfl, rfl⟩

/-- Witness for C7 at the three-pixel display. -/
theorem c7_witness :
    disp0.pixels.offsets.length = disp0.geom.pixelCount ∧
      (((set_cmap disp0 cmap1).pixels.offsets.length =
          (set_cmap disp0 cmap1).geom.pixelCount ∧
        (set_cmap disp0 cmap1).pixels.valueArray = disp0.pixels.valueArray ∧
        (set_cmap disp0 cmap1).geom = disp0.geom) ∧
      ((add_moment_ellipse disp0 (0, 0) 1 1 0 0 []).1.pixels = disp0.pixels ∧
        (add_moment_ellipse disp0 (0, 0) 1 1 0 0 []).1.geom = disp0.geom ∧
        (add_moment_ellipse disp0 (0, 0) 1 1 0 0 []).1.pixels.offsets.length =
          (add_moment_ellipse disp0 (0, 0) 1 1 0 0 []).1.geom.pixelCount) ∧
      (∀ (image : NDArray) (dd : CameraDisplay),
        draw_image disp0 image = Except.ok dd →
          dd.pixels.offsets.length = dd.geom.pixelCount ∧
          dd.geom = disp0.geom ∧
          dd.pixels.offsets = disp0.pixels.offsets ∧
          dd.pixels.sizes = disp0.pixels.sizes ∧
          dd.pixels.cmap = disp0.pixels.cmap ∧
          dd.pixels.numsides = disp0.pixels.numsides ∧
          dd.pixels.rotation = disp0.pixels.rotation ∧
          dd.pixels.linewidth = disp0.pixels.linewidth)) :=
  ⟨rfl, c7_invariant disp0 cmap1 (0, 0) 1 1 0 0 [] rfl⟩

/-- Claim C8 counterexample: applying `add_moment_ellipse` twice with the
same arguments does not yield the same display state as applying it once —
a second ellipse patch is added to the surface. -/
theorem c8_counterexample :
    (add_moment_ellipse (add_moment_ellipse disp0 (0, 0) 1 1 0 0 []).1
        (0, 0) 1 1 0 0 []).1 ≠
      (add_moment_ellipse disp0 (0, 0) 1 1 0 0 []).1 := by
  intro h
  have h2 := congrArg (fun s : CameraDisplay => s.patches.length) h
  simp [add_moment_ellipse, disp0] at h2

/-- Claim C8 (amended): `set_cmap` and `draw_image` are idempotent
point-updates, but `add_moment_ellipse` is not — each call appends one more
overlay patch to the surface. -/
theorem c8_amended_idempotence (d : CameraDisplay) (cmap : String)
    (image : NDArray) (dd : CameraDisplay)
    (h : draw_image d image = Except.ok dd) :
    set_cmap (set_cmap d cmap) cmap = set_cmap d cmap ∧
      draw_image dd image = Except.ok dd ∧
      ∀ (centroid : ℝ × ℝ) (length width phi assymmetry : ℝ)
        (kwargs : List (String × String)),
        (add_moment_ellipse
            (add_moment_ellipse d centroid length width phi assymmetry
              kwargs).1
            centroid length width phi assymmetry kwargs).1.patches.length =
          d.patches.length + 2 := by
  obtain ⟨hsh, hdd⟩ := (draw_image_eq_ok_iff d image dd).1 h
  refine ⟨rfl, ?_, ?_⟩
  · refine (draw_image_eq_ok_iff dd image dd).2 ⟨?_, ?_⟩
    · subst hdd
      exact hsh
    · have hva : dd.pixels.valueArray = image := by
        subst hdd
        rfl
      rw [setValueArray_eq_self dd.pixels image hva]
  · intro centroid length width phi assymmetry kwargs
    simp [add_moment_ellipse]

/-- Witness for the amended C8 at the three-pixel display. -/
theorem c8_witness :
    draw_image disp0 img0 = Except.ok disp1 ∧
      (set_cmap (set_cmap disp0 cmap1) cmap1 = set_cmap disp0 cmap1 ∧
        draw_image disp1 img0 = Except.ok disp1 ∧
        ∀ (centroid : ℝ × ℝ) (length width phi assymmetry : ℝ)
          (kwargs : List (String × String)),
          (add_moment_ellipse
              (add_moment_ellipse disp0 centroid length width phi assymmetry
                kwargs).1
              centroid length width phi assymmetry kwargs).1.patches.length =
            disp0.patches.length + 2) :=
  ⟨rfl, c8_amended_idempotence disp0 cmap1 img0 disp1 rfl⟩

/-- Claim C9: the result of `add_moment_ellipse` — the created ellipse and
the resulting display state — is identical for any two values of the
`assymmetry` parameter, all other arguments equal. -/
theorem c9_assymmetry_unused (d : CameraDisplay) (centroid : ℝ × ℝ)
    (length width phi a1 a2 : ℝ) (kwargs : List (String × String)) :
    add_moment_ellipse d centroid length width phi a1 kwargs =
      add_moment_ellipse d centroid length width phi a2 kwargs := rfl

/-- Claim C10: `draw_image` compares the full shape against the geometry's
pixel-position array shape, not just the length: an image whose total
element count equals the pixel count but whose shape differs is rejected
with the shape-mismatch error, leaving the state unchanged. -/
theorem c10_shape_not_length (d : CameraDisplay) (image : NDArray)
    (hsize : image.size = d.geom.pixelCount)
    (hshape : image.shape ≠ d.geom.pixXShape) :
    draw_image d image =
        Except.error (drawImageError image.shape d.geom.pixXShape) ∧
      draw_image_state d image = d := by
  have herr : draw_image d image =
      Except.error (drawImageError image.shape d.geom.pixXShape) := by
    unfold draw_image
    simp [hshape]
  exact ⟨herr, by simp [draw_image_state, herr]⟩

/-- Witness for C10: a `[1, 3]`-shaped image of three elements against the
three-pixel geometry, whose pixel array shape is `[3]`. -/
theorem c10_witness :
    imgGrid.size = disp0.geom.pixelCount ∧
      imgGrid.shape ≠ disp0.geom.pixXShape ∧
      (draw_image disp0 imgGrid =
          Except.error (drawImageError imgGrid.shape disp0.geom.pixXShape) ∧
        draw_image_state disp0 imgGrid = disp0) :=
  ⟨by decide, by decide,
    c10_shape_not_length disp0 imgGrid (by decide) (by decide)⟩

end Ctapipe
